import Mathlib

/-!
Verification of the indicator / scoring logic of `src/server.js`.

The server computes technical indicators over a list of closing prices and
scores a per-symbol snapshot with fixed threshold rules.  JavaScript numbers
are modelled as rationals (`ℚ`), nullable values as `Option ℚ`, and a thrown
provider error as `Except String`.  JavaScript's relational operators coerce
`null` to `0` (`ToNumber(null) = 0`); `toNum` captures that coercion, and it
is used exactly where the source compares possibly-null fields directly
(the moving-average rule).
-/

namespace StockServer

/-- JavaScript numeric coercion applied by `<` / `>` to a nullable value:
`null` becomes `0`, a number stays itself. -/
def toNum (x : Option ℚ) : ℚ := x.getD 0

/-- The per-symbol record built by `fetchStockData` in `src/server.js`:
`{ symbol, price, volume, rsi, ma_5, ma_25 }` with all numeric fields
nullable. -/
structure Snapshot where
  symbol : String
  price : Option ℚ
  volume : Option ℚ
  rsi : Option ℚ
  ma_5 : Option ℚ
  ma_25 : Option ℚ
deriving DecidableEq

/-- `average(arr)` from `src/server.js`:
`const valid = arr.filter(v => v != null);`
`return valid.length > 0 ? valid.reduce((a, b) => a + b, 0) / valid.length : null;` -/
def average (arr : List (Option ℚ)) : Option ℚ :=
  let valid := arr.filterMap id
  if valid.length > 0 then some (valid.foldl (fun a b => a + b) 0 / valid.length) else none

/-- One iteration of the `calcRSI` loop body at index `i`:
`const diff = closes[i + 1] - closes[i]; if (diff > 0) gains += diff; else losses -= diff;`
The accumulator `gl` is the pair `(gains, losses)`. -/
def rsiStep (closes : List ℚ) (gl : ℚ × ℚ) (i : ℕ) : ℚ × ℚ :=
  let diff := closes.getD (i + 1) 0 - closes.getD i 0
  if diff > 0 then (gl.1 + diff, gl.2) else (gl.1, gl.2 - diff)

/-- Proof-side view of the loop body: `rsiStep closes gl i` is `diffStep gl d`
where `d` is the day-over-day difference at index `i`. -/
def diffStep (gl : ℚ × ℚ) (d : ℚ) : ℚ × ℚ :=
  if d > 0 then (gl.1 + d, gl.2) else (gl.1, gl.2 - d)

/-- `calcRSI(closes)` from `src/server.js`.  The for-loop
`for (let i = closes.length - 15; i < closes.length - 1; i++)` runs over the
14 indices `closes.length - 15 .. closes.length - 2`, modelled as a fold over
`List.range' (closes.length - 15) 14`. -/
def calcRSI (closes : List ℚ) : Option ℚ :=
  if closes.length < 15 then none
  else
    let gl := (List.range' (closes.length - 15) 14).foldl (rsiStep closes) (0, 0)
    let avgGain := gl.1 / 14
    let avgLoss := gl.2 / 14
    if avgLoss = 0 then some 100
    else if avgGain = 0 then some 0
    else
      let rs := avgGain / avgLoss
      some (((round ((100 - 100 / (1 + rs)) * 10) : ℤ) : ℚ) / 10)

/-- JavaScript `l.slice(-n)`: the last `n` elements of `l` (the whole list
when `l` has fewer than `n` elements). -/
def sliceLast (n : ℕ) (l : List α) : List α := l.drop (l.length - n)

/-- `fetchStockData` from `src/server.js`, with the two upstream calls
abstracted into inputs: `price` and `volume` stand for
`quote.regularMarketPrice ?? null` and `quote.regularMarketVolume ?? null`,
and `historicalCloses` for `historical.map(d => d.close)`.  The body then
filters out null closes and derives the indicators:
`closes.filter(v => v != null)`, `calcRSI(closes)`,
`average(closes.slice(-5))`, `average(closes.slice(-25))`. -/
def fetchStockData (symbol : String) (price volume : Option ℚ)
    (historicalCloses : List (Option ℚ)) : Snapshot :=
  let closes := historicalCloses.filterMap id
  { symbol := symbol
    price := price
    volume := volume
    rsi := calcRSI closes
    ma_5 := average ((sliceLast 5 closes).map some)
    ma_25 := average ((sliceLast 25 closes).map some) }

/-- Which of the three scoring rules a rationale string comes from. -/
inductive Topic
  | rsi
  | ma
  | volume
deriving DecidableEq

/-- The ten rationale strings pushed onto `comments` by the `/score` handler,
as tagged values (the RSI rationales interpolate the RSI value). -/
inductive Comment
  | rsiGoodBuy (r : ℚ)
  | rsiOverheated (r : ℚ)
  | rsiNeutral (r : ℚ)
  | rsiUnavailable
  | maUptrend
  | maDowntrend
  | maFlat
  | volNotable
  | volAverage
  | volUnavailable
deriving DecidableEq

/-- The rule a rationale belongs to. -/
def Comment.topic : Comment → Topic
  | .rsiGoodBuy _ => .rsi
  | .rsiOverheated _ => .rsi
  | .rsiNeutral _ => .rsi
  | .rsiUnavailable => .rsi
  | .maUptrend => .ma
  | .maDowntrend => .ma
  | .maFlat => .ma
  | .volNotable => .volume
  | .volAverage => .volume
  | .volUnavailable => .volume

/-- The RSI block of the `/score` handler (`if (data.rsi != null) { ... }`):
its score increment and the one rationale it pushes. -/
def rsiRule (rsi : Option ℚ) : ℤ × Comment :=
  match rsi with
  | some r =>
    if r < 40 then (5, .rsiGoodBuy r)
    else if r > 70 then (0, .rsiOverheated r)
    else (3, .rsiNeutral r)
  | none => (0, .rsiUnavailable)

/-- The moving-average block of the `/score` handler.  The source compares the
nullable fields directly (`data.price > data.ma_5 && data.ma_5 > data.ma_25`),
so each operand goes through JavaScript's `null ↦ 0` coercion (`toNum`). -/
def maRule (price ma_5 ma_25 : Option ℚ) : ℤ × Comment :=
  if toNum price > toNum ma_5 ∧ toNum ma_5 > toNum ma_25 then (5, .maUptrend)
  else if toNum price < toNum ma_5 ∧ toNum ma_5 < toNum ma_25 then (0, .maDowntrend)
  else (2, .maFlat)

/-- The volume block of the `/score` handler:
`data.volume != null && data.volume > 10000000` → +5, else non-null → +3,
else +0. -/
def volRule (volume : Option ℚ) : ℤ × Comment :=
  match volume with
  | some v => if v > 10000000 then (5, .volNotable) else (3, .volAverage)
  | none => (0, .volUnavailable)

/-- The whole scoring pass of the `/score` handler: starting from
`score = 0, comments = []` it runs the RSI, moving-average and volume blocks
in that order, each adding its increment and pushing its one rationale. -/
def scoreSnapshot (d : Snapshot) : ℤ × List Comment :=
  let r := rsiRule d.rsi
  let m := maRule d.price d.ma_5 d.ma_25
  let v := volRule d.volume
  (r.1 + m.1 + v.1, [r.2, m.2, v.2])

/-- The judgment ternary of the `/score` handler.  Label glossary (spec §4.2):
`買い優勢` = "bullish", `中立～やや買い` = "neutral-to-buy",
`様子見` = "wait-and-see", `売り警戒` = "bearish/caution". -/
def judgment (score : ℤ) : String :=
  if score ≥ 12 then "買い優勢"
  else if score ≥ 8 then "中立～やや買い"
  else if score ≥ 5 then "様子見"
  else "売り警戒"

/-- A JSON field value appearing in the `/multi-stock` response entries. -/
inductive JVal
  | str (s : String)
  | num (q : ℚ)
  | jnull
deriving DecidableEq

/-- A nullable number serialised into JSON. -/
def optNum : Option ℚ → JVal
  | some q => .num q
  | none => .jnull

/-- The JSON object (field list, in insertion order) for a successfully
fetched snapshot, as returned by `fetchStockData`. -/
def snapshotJson (d : Snapshot) : List (String × JVal) :=
  [("symbol", .str d.symbol), ("price", optNum d.price), ("volume", optNum d.volume),
   ("rsi", optNum d.rsi), ("ma_5", optNum d.ma_5), ("ma_25", optNum d.ma_25)]

/-- The JSON object pushed by the `catch` branch of the `/multi-stock` loop:
`{ symbol, price: null, volume: null, rsi: null, ma_5: null, ma_25: null,
error: err.message }`. -/
def errorJson (symbol msg : String) : List (String × JVal) :=
  [("symbol", .str symbol), ("price", .jnull), ("volume", .jnull), ("rsi", .jnull),
   ("ma_5", .jnull), ("ma_25", .jnull), ("error", .str msg)]

/-- One iteration of the `/multi-stock` loop: try `fetchStockData(symbol)`,
push its JSON on success, push the error record on failure.  `fetch` is the
abstract outcome of `fetchStockData` per symbol (`Except.error` = thrown). -/
def stockEntry (fetch : String → Except String Snapshot) (symbol : String) :
    List (String × JVal) :=
  match fetch symbol with
  | .ok d => snapshotJson d
  | .error msg => errorJson symbol msg

/-- The `/multi-stock` handler's loop over the parsed symbol list, pushing one
entry per symbol into `results` in input order. -/
def multiStock (fetch : String → Except String Snapshot) : List String → List (List (String × JVal))
  | [] => []
  | symbol :: rest => stockEntry fetch symbol :: multiStock fetch rest

/-- Modelled from the spec (§4.1), for comparison with `calcRSI`: examine the
14 day-over-day differences of the last 15 closes, accumulate positive
differences into `gains` and absolute values of negative differences into
`losses`, average both over 14, then apply the zero-guards in order
(`avgLoss = 0` → 100, `avgGain = 0` → 0) and otherwise round
`100 - 100 / (1 + avgGain / avgLoss)` to one decimal place. -/
def rsiSpec (closes : List ℚ) : ℚ :=
  let lastFifteen := sliceLast 15 closes
  let diffs := List.zipWith (fun a b => b - a) lastFifteen lastFifteen.tail
  let gains := (diffs.filter (fun d => 0 < d)).sum
  let losses := ((diffs.filter (fun d => d < 0)).map (fun d => |d|)).sum
  let avgGain := gains / 14
  let avgLoss := losses / 14
  if avgLoss = 0 then 100
  else if avgGain = 0 then 0
  else ((round ((100 - 100 / (1 + avgGain / avgLoss)) * 10) : ℤ) : ℚ) / 10

theorem rsiStep_eq_diffStep (closes : List ℚ) (gl : ℚ × ℚ) (i : ℕ) :
    rsiStep closes gl i = diffStep gl (closes.getD (i + 1) 0 - closes.getD i 0) := rfl

theorem foldl_diffStep (ds : List ℚ) (g l : ℚ) :
    ds.foldl diffStep (g, l)
      = (g + (ds.filter (fun d => 0 < d)).sum,
         l + ((ds.filter (fun d => d < 0)).map (fun d => |d|)).sum) := by
  induction ds generalizing g l with
  | nil => simp
  | cons d ds ih =>
    rcases lt_trichotomy d 0 with hd | hd | hd
    · have h1 : ¬ d > 0 := by linarith
      rw [List.foldl_cons, diffStep, if_neg h1, ih]
      simp only [List.filter_cons, decide_eq_true_eq, if_neg (not_lt.2 hd.le), if_pos hd,
        List.map_cons, List.sum_cons, abs_of_neg hd]
      rw [Prod.mk.injEq]
      exact ⟨by ring, by ring⟩
    · subst hd
      rw [List.foldl_cons, diffStep, if_neg (lt_irrefl 0), ih]
      simp
    · rw [List.foldl_cons, diffStep, if_pos hd, ih]
      simp only [List.filter_cons, decide_eq_true_eq, if_pos hd, if_neg (not_lt.2 hd.le),
        List.sum_cons]
      rw [Prod.mk.injEq]
      exact ⟨by ring, by ring⟩

theorem getD_drop_eq (l : List ℚ) (m j : ℕ) : (l.drop m).getD j 0 = l.getD (m + j) 0 := by
  simp [List.getD_eq_getElem?_getD, List.getElem?_drop]

theorem map_range_getD_diff (t : List ℚ) (a : ℚ) :
    (List.range t.length).map (fun j => (a :: t).getD (j + 1) 0 - (a :: t).getD j 0)
      = List.zipWith (fun x y => y - x) (a :: t) t := by
  induction t generalizing a with
  | nil => simp
  | cons b t ih =>
    rw [List.length_cons, List.range_succ_eq_map, List.map_cons, List.map_map]
    have hfun : ((fun j => (a :: b :: t).getD (j + 1) 0 - (a :: b :: t).getD j 0) ∘ Nat.succ)
        = fun j => (b :: t).getD (j + 1) 0 - (b :: t).getD j 0 := by
      funext j
      simp [Function.comp, List.getD_cons_succ]
    rw [hfun, ih b]
    simp [List.zipWith]

theorem rsiFold_eq_zipWith (closes : List ℚ) (h : 15 ≤ closes.length) :
    (List.range' (closes.length - 15) 14).foldl (rsiStep closes) (0, 0)
      = (List.zipWith (fun x y => y - x) (sliceLast 15 closes) (sliceLast 15 closes).tail).foldl
          diffStep (0, 0) := by
  have htl : (sliceLast 15 closes).length = 15 := by
    simp only [sliceLast, List.length_drop]
    omega
  rcases ht : sliceLast 15 closes with _ | ⟨a, t'⟩
  · rw [ht] at htl
    simp at htl
  · have ht'len : t'.length = 14 := by
      rw [ht] at htl
      simpa using htl
    rw [List.range'_eq_map_range, List.foldl_map]
    have hstep : ∀ (gl : ℚ × ℚ), ∀ j ∈ List.range 14,
        rsiStep closes gl (closes.length - 15 + j)
          = diffStep gl ((a :: t').getD (j + 1) 0 - (a :: t').getD j 0) := by
      intro gl j _
      rw [rsiStep_eq_diffStep]
      have h1 : closes.getD (closes.length - 15 + j) 0 = (a :: t').getD j 0 := by
        rw [← getD_drop_eq closes (closes.length - 15) j, ← sliceLast, ht]
      have h2 : closes.getD (closes.length - 15 + j + 1) 0 = (a :: t').getD (j + 1) 0 := by
        rw [add_assoc, ← getD_drop_eq closes (closes.length - 15) (j + 1), ← sliceLast, ht]
      rw [h1, h2]
    rw [List.foldl_ext _ _ _ hstep, ← List.foldl_map, ← ht'len, map_range_getD_diff t' a]
    simp

theorem calcRSI_eq_rsiSpec (closes : List ℚ) (h : 15 ≤ closes.length) :
    calcRSI closes = some (rsiSpec closes) := by
  simp only [calcRSI, rsiSpec, if_neg (by omega : ¬ closes.length < 15)]
  rw [rsiFold_eq_zipWith closes h, foldl_diffStep]
  simp only [zero_add]
  split_ifs <;> rfl

theorem average_eq_mean (arr : List (Option ℚ)) :
    average arr = if arr.filterMap id = [] then none
      else some ((arr.filterMap id).sum / (arr.filterMap id).length) := by
  simp only [average]
  rcases eq_or_ne (arr.filterMap id) [] with h | h
  · simp [h]
  · have hl : 0 < (arr.filterMap id).length := List.length_pos.2 h
    rw [if_pos hl, if_neg h, List.sum_eq_foldl]

theorem filterMap_id_map_some (l : List ℚ) : (l.map some).filterMap id = l := by
  rw [List.filterMap_map]
  simp

theorem average_map_some (l : List ℚ) :
    average (l.map some) = if l = [] then none else some (l.sum / l.length) := by
  rw [average_eq_mean, filterMap_id_map_some]

theorem sliceLast_eq_nil_iff (n : ℕ) (hn : 0 < n) (l : List ℚ) :
    sliceLast n l = [] ↔ l = [] := by
  constructor
  · intro h
    have hlen := congrArg List.length h
    simp only [sliceLast, List.length_drop, List.length_nil] at hlen
    exact List.length_eq_zero.1 (by omega)
  · intro h
    subst h
    simp [sliceLast]

theorem calcRSI_ne_none_length (closes : List ℚ) (h : calcRSI closes ≠ none) :
    15 ≤ closes.length := by
  by_contra hlen
  apply h
  simp only [calcRSI, if_pos (by omega : closes.length < 15)]

theorem ma_none_iff (n : ℕ) (hn : 0 < n) (closes : List ℚ) :
    average ((sliceLast n closes).map some) = none ↔ closes = [] := by
  rw [average_map_some]
  rcases eq_or_ne closes [] with h | h
  · simp [h, sliceLast]
  · rw [if_neg ((not_iff_not.2 (sliceLast_eq_nil_iff n hn closes)).2 h)]
    simp [h]

theorem rsiRule_score_cases (x : Option ℚ) :
    (rsiRule x).1 = 0 ∨ (rsiRule x).1 = 3 ∨ (rsiRule x).1 = 5 := by
  rcases x with _ | r
  · simp [rsiRule]
  · simp only [rsiRule]
    split_ifs <;> simp

theorem rsiRule_topic (x : Option ℚ) : (rsiRule x).2.topic = Topic.rsi := by
  rcases x with _ | r
  · rfl
  · simp only [rsiRule]
    split_ifs <;> rfl

theorem maRule_score_cases (p m5 m25 : Option ℚ) :
    (maRule p m5 m25).1 = 0 ∨ (maRule p m5 m25).1 = 2 ∨ (maRule p m5 m25).1 = 5 := by
  simp only [maRule]
  split_ifs <;> simp

theorem maRule_topic (p m5 m25 : Option ℚ) : (maRule p m5 m25).2.topic = Topic.ma := by
  simp only [maRule]
  split_ifs <;> rfl

theorem volRule_score_cases (x : Option ℚ) :
    (volRule x).1 = 0 ∨ (volRule x).1 = 3 ∨ (volRule x).1 = 5 := by
  rcases x with _ | v
  · simp [volRule]
  · simp only [volRule]
    split_ifs <;> simp

theorem volRule_topic (x : Option ℚ) : (volRule x).2.topic = Topic.volume := by
  rcases x with _ | v
  · rfl
  · simp only [volRule]
    split_ifs <;> rfl

theorem rsiFormula_bounds (gains losses : ℚ) (hg : 0 ≤ gains) (hl : 0 ≤ losses) :
    0 ≤ (if losses / 14 = 0 then (100 : ℚ)
         else if gains / 14 = 0 then 0
         else ((round ((100 - 100 / (1 + gains / 14 / (losses / 14))) * 10) : ℤ) : ℚ) / 10) ∧
    (if losses / 14 = 0 then (100 : ℚ)
     else if gains / 14 = 0 then 0
     else ((round ((100 - 100 / (1 + gains / 14 / (losses / 14))) * 10) : ℤ) : ℚ) / 10) ≤ 100 := by
  split_ifs with h1 h2
  · norm_num
  · norm_num
  · have hl' : 0 < losses / 14 := lt_of_le_of_ne (by positivity) (Ne.symm h1)
    have hg' : 0 < gains / 14 := lt_of_le_of_ne (by positivity) (Ne.symm h2)
    have hrs : 0 < gains / 14 / (losses / 14) := div_pos hg' hl'
    have hx1 : (0 : ℚ) < 100 / (1 + gains / 14 / (losses / 14)) := by positivity
    have hx2 : 100 / (1 + gains / 14 / (losses / 14)) < 100 :=
      div_lt_self (by norm_num) (by linarith)
    have hround_lb : (0 : ℤ) ≤ round ((100 - 100 / (1 + gains / 14 / (losses / 14))) * 10) := by
      rw [round_eq]
      apply Int.le_floor.2
      push_cast
      linarith
    have hround_ub : round ((100 - 100 / (1 + gains / 14 / (losses / 14))) * 10) ≤ 1000 := by
      rw [round_eq]
      have hfl : (⌊(100 - 100 / (1 + gains / 14 / (losses / 14))) * 10 + 1/2⌋ : ℚ)
          ≤ (100 - 100 / (1 + gains / 14 / (losses / 14))) * 10 + 1/2 := Int.floor_le _
      have hlt : (⌊(100 - 100 / (1 + gains / 14 / (losses / 14))) * 10 + 1/2⌋ : ℚ) < 1001 := by
        linarith
      have hlt' : ⌊(100 - 100 / (1 + gains / 14 / (losses / 14))) * 10 + 1/2⌋ < (1001 : ℤ) := by
        exact_mod_cast hlt
      omega
    constructor
    · apply div_nonneg _ (by norm_num)
      exact_mod_cast hround_lb
    · rw [div_le_iff₀ (by norm_num : (0 : ℚ) < 10)]
      have : ((round ((100 - 100 / (1 + gains / 14 / (losses / 14))) * 10) : ℤ) : ℚ) ≤ 1000 := by
        exact_mod_cast hround_ub
      linarith

theorem rsiSpec_bounds (closes : List ℚ) : 0 ≤ rsiSpec closes ∧ rsiSpec closes ≤ 100 := by
  simp only [rsiSpec]
  apply rsiFormula_bounds
  · apply List.sum_nonneg
    intro x hx
    have := List.mem_filter.1 hx
    simp only [decide_eq_true_eq] at this
    exact this.2.le
  · apply List.sum_nonneg
    intro x hx
    obtain ⟨y, _, rfl⟩ := List.mem_map.1 hx
    exact abs_nonneg y

/-- C1: for every list of closes with at least 15 entries, `calcRSI` computes
exactly the spec's formula: sum the positive day-over-day differences of the
last 15 closes into `gains` and the absolute values of the negative ones into
`losses`, average both over 14, then (in this order) return 100 if
`avgLoss = 0`, 0 if `avgGain = 0`, and otherwise
`100 - 100 / (1 + avgGain / avgLoss)` rounded to one decimal place. -/
theorem calcRSI_matches_spec (closes : List ℚ) (h : 15 ≤ closes.length) :
    calcRSI closes = some (rsiSpec closes) := calcRSI_eq_rsiSpec closes h

/-- Witness for C1 at a concrete 15-element close series. -/
theorem calcRSI_matches_spec_witness :
    15 ≤ (List.replicate 15 (1 : ℚ)).length ∧
      calcRSI (List.replicate 15 (1 : ℚ)) = some (rsiSpec (List.replicate 15 (1 : ℚ))) :=
  ⟨by decide, calcRSI_matches_spec (List.replicate 15 (1 : ℚ)) (by decide)⟩

/-- C2: the scorer maps the total score of every snapshot to a label by
checking the thresholds highest first: `score ≥ 12` → `買い優勢` ("bullish"),
else `score ≥ 8` → `中立～やや買い` ("neutral-to-buy"), else `score ≥ 5` →
`様子見` ("wait-and-see"), else `売り警戒` ("bearish/caution"). -/
theorem judgment_thresholds (d : Snapshot) :
    (12 ≤ (scoreSnapshot d).1 → judgment (scoreSnapshot d).1 = "買い優勢") ∧
    ((scoreSnapshot d).1 < 12 → 8 ≤ (scoreSnapshot d).1 →
      judgment (scoreSnapshot d).1 = "中立～やや買い") ∧
    ((scoreSnapshot d).1 < 8 → 5 ≤ (scoreSnapshot d).1 →
      judgment (scoreSnapshot d).1 = "様子見") ∧
    ((scoreSnapshot d).1 < 5 → judgment (scoreSnapshot d).1 = "売り警戒") := by
  refine ⟨fun h => ?_, fun h1 h2 => ?_, fun h1 h2 => ?_, fun h => ?_⟩
  · simp only [judgment]
    rw [if_pos h]
  · simp only [judgment]
    rw [if_neg (by omega), if_pos h2]
  · simp only [judgment]
    rw [if_neg (by omega), if_neg (by omega), if_pos h2]
  · simp only [judgment]
    rw [if_neg (by omega), if_neg (by omega), if_neg (by omega)]

/-- Witness for C2: the all-null snapshot scores 2 and is judged `売り警戒`. -/
theorem judgment_thresholds_witness :
    (scoreSnapshot ⟨"X", none, none, none, none, none⟩).1 < 5 ∧
      judgment (scoreSnapshot ⟨"X", none, none, none, none, none⟩).1 = "売り警戒" :=
  ⟨by decide,
   (judgment_thresholds ⟨"X", none, none, none, none, none⟩).2.2.2 (by decide)⟩

/-- C3: for every snapshot (null fields included) the total score is an
integer in `[0, 15]` and the comments list has exactly three entries, in the
fixed order RSI rationale, moving-average rationale, volume rationale. -/
theorem score_range_and_comments (d : Snapshot) :
    0 ≤ (scoreSnapshot d).1 ∧ (scoreSnapshot d).1 ≤ 15 ∧
      (scoreSnapshot d).2.map Comment.topic = [Topic.rsi, Topic.ma, Topic.volume] := by
  obtain h1 := rsiRule_score_cases d.rsi
  obtain h2 := maRule_score_cases d.price d.ma_5 d.ma_25
  obtain h3 := volRule_score_cases d.volume
  refine ⟨?_, ?_, ?_⟩
  · simp only [scoreSnapshot]
    omega
  · simp only [scoreSnapshot]
    omega
  · simp only [scoreSnapshot, List.map_cons, List.map_nil,
      rsiRule_topic, maRule_topic, volRule_topic]

/-- C4: the RSI rule of the scorer contributes +5 when the RSI is present and
below 40, +0 when present and above 70, +3 when present and in `[40, 70]`,
and +0 with the "RSI unavailable" rationale when the RSI is null; the total
score is the sum of the three rules' contributions. -/
theorem rsiRule_cases (d : Snapshot) :
    (scoreSnapshot d).1
        = (rsiRule d.rsi).1 + (maRule d.price d.ma_5 d.ma_25).1 + (volRule d.volume).1 ∧
    (∀ r : ℚ, d.rsi = some r → r < 40 → rsiRule d.rsi = (5, Comment.rsiGoodBuy r)) ∧
    (∀ r : ℚ, d.rsi = some r → 70 < r → rsiRule d.rsi = (0, Comment.rsiOverheated r)) ∧
    (∀ r : ℚ, d.rsi = some r → 40 ≤ r → r ≤ 70 → rsiRule d.rsi = (3, Comment.rsiNeutral r)) ∧
    (d.rsi = none → rsiRule d.rsi = (0, Comment.rsiUnavailable)) := by
  refine ⟨rfl, ?_, ?_, ?_, ?_⟩
  · intro r hr hlt
    rw [hr]
    simp only [rsiRule]
    rw [if_pos hlt]
  · intro r hr hgt
    rw [hr]
    simp only [rsiRule, gt_iff_lt]
    rw [if_neg (by linarith), if_pos hgt]
  · intro r hr hge hle
    rw [hr]
    simp only [rsiRule, gt_iff_lt]
    rw [if_neg (by linarith), if_neg (by linarith)]
  · intro h
    rw [h]
    rfl

/-- Witness for C4 at RSI = 35 (the "good buy zone" branch). -/
theorem rsiRule_cases_witness :
    rsiRule (Snapshot.mk "X" none none (some 35) none none).rsi
      = (5, Comment.rsiGoodBuy 35) :=
  (rsiRule_cases ⟨"X", none, none, some 35, none, none⟩).2.1 35 rfl (by norm_num)

/-- Counterexample to C5 as stated: with a null price and moving averages
`ma_5 = 5 < ma_25 = 10`, the source's comparison coerces `null` to 0, takes
the downtrend branch and contributes +0 — not the +2 the claim requires for
every case involving a null field. -/
theorem maRule_null_price_counterexample :
    (maRule none (some 5) (some 10)).1 = 0 ∧ (maRule none (some 5) (some 10)).1 ≠ 2 := by
  norm_num [maRule, toNum]

/-- C5 (amended): with JavaScript's `null ↦ 0` coercion applied to each
operand, the moving-average rule contributes +5 exactly when
`price > ma_5 > ma_25`, +0 exactly when `price < ma_5 < ma_25`, and +2 in
every other case. -/
theorem maRule_cases_jsCoercion (p m5 m25 : Option ℚ) :
    ((maRule p m5 m25).1 = 5 ↔ toNum m5 < toNum p ∧ toNum m25 < toNum m5) ∧
    ((maRule p m5 m25).1 = 0 ↔ toNum p < toNum m5 ∧ toNum m5 < toNum m25) ∧
    ((maRule p m5 m25).1 = 2 ↔
      ¬(toNum m5 < toNum p ∧ toNum m25 < toNum m5) ∧
      ¬(toNum p < toNum m5 ∧ toNum m5 < toNum m25)) := by
  simp only [maRule, gt_iff_lt]
  split_ifs with h1 h2
  · refine ⟨⟨fun _ => h1, fun _ => rfl⟩, ?_, ?_⟩
    · constructor
      · intro h
        exact absurd h (by norm_num)
      · intro hc
        exact absurd hc.1 (lt_asymm h1.1)
    · constructor
      · intro h
        exact absurd h (by norm_num)
      · intro hc
        exact (hc.1 h1).elim
  · refine ⟨?_, ⟨fun _ => h2, fun _ => rfl⟩, ?_⟩
    · constructor
      · intro h
        exact absurd h (by norm_num)
      · intro hc
        exact absurd hc.1 (lt_asymm h2.1)
    · constructor
      · intro h
        exact absurd h (by norm_num)
      · intro hc
        exact (hc.2 h2).elim
  · refine ⟨?_, ?_, ⟨fun _ => ⟨h1, h2⟩, fun _ => rfl⟩⟩
    · constructor
      · intro h
        exact absurd h (by norm_num)
      · intro hc
        exact (h1 hc).elim
    · constructor
      · intro h
        exact absurd h (by norm_num)
      · intro hc
        exact (h2 hc).elim

/-- C6: `calcRSI` returns null on every close series shorter than 15 entries
(it is a total function: no error is possible on short input). -/
theorem calcRSI_short_input (closes : List ℚ) (h : closes.length < 15) :
    calcRSI closes = none := by
  simp only [calcRSI, if_pos h]

/-- Witness for C6 at the empty close series. -/
theorem calcRSI_short_input_witness :
    ([] : List ℚ).length < 15 ∧ calcRSI ([] : List ℚ) = none :=
  ⟨by decide, calcRSI_short_input [] (by decide)⟩

/-- C7: `average` drops null entries and returns the arithmetic mean of the
remaining values, returning null (with no division) when nothing remains;
in particular the average of `[1,2,3,4,5]` over a window of 5 is 3. -/
theorem average_drops_nulls :
    (∀ arr : List (Option ℚ),
      average arr = if arr.filterMap id = [] then none
        else some ((arr.filterMap id).sum / (arr.filterMap id).length)) ∧
    average ((sliceLast 5 ([1, 2, 3, 4, 5] : List ℚ)).map some) = some 3 := by
  refine ⟨average_eq_mean, ?_⟩
  norm_num [average, sliceLast, List.filterMap_cons]

/-- Counterexample to C8 as stated: when the single symbol "A" fails, its
entry carries the seven fields
`{symbol, price, volume, rsi, ma_5, ma_25, error}`, not only
`{symbol, error}`. -/
theorem multiStock_error_fields_counterexample :
    (multiStock (fun _ => Except.error "boom") ["A"]).map (fun e => e.map Prod.fst)
        = [["symbol", "price", "volume", "rsi", "ma_5", "ma_25", "error"]] ∧
    (multiStock (fun _ => Except.error "boom") ["A"]).map (fun e => e.map Prod.fst)
        ≠ [["symbol", "error"]] := by
  constructor
  · rfl
  · intro h
    simp [multiStock, stockEntry, errorJson] at h

/-- C8 (amended): for N symbols the batch output has exactly N entries in
input order, the i-th entry depends only on the fetch outcome for the i-th
symbol (so one symbol's failure cannot affect the others), and a failed
symbol's entry is the error record
`{symbol, price: null, volume: null, rsi: null, ma_5: null, ma_25: null,
error}`. -/
theorem multiStock_per_symbol (fetch : String → Except String Snapshot)
    (symbols : List String) :
    (multiStock fetch symbols).length = symbols.length ∧
    (∀ i : ℕ, (multiStock fetch symbols)[i]? = (symbols[i]?).map (stockEntry fetch)) ∧
    (∀ i : ℕ, ∀ symbol msg, symbols[i]? = some symbol → fetch symbol = .error msg →
      (multiStock fetch symbols)[i]? = some (errorJson symbol msg)) := by
  induction symbols with
  | nil => simp [multiStock]
  | cons s rest ih =>
    refine ⟨?_, ?_, ?_⟩
    · simp [multiStock, ih.1]
    · intro i
      cases i with
      | zero => simp [multiStock]
      | succ n => simpa [multiStock] using ih.2.1 n
    · intro i symbol msg hs hf
      cases i with
      | zero =>
        simp only [List.getElem?_cons_zero, Option.some.injEq] at hs
        subst hs
        simp [multiStock, stockEntry, hf]
      | succ n =>
        simp only [List.getElem?_cons_succ] at hs
        simpa [multiStock] using ih.2.2 n symbol msg hs hf

/-- Witness for C8 at two symbols, the second failing. -/
theorem multiStock_per_symbol_witness :
    (multiStock (fun _ => Except.error "boom") ["A", "B"])[1]?
      = some (errorJson "B" "boom") :=
  (multiStock_per_symbol (fun _ => Except.error "boom") ["A", "B"]).2.2 1 "B" "boom"
    rfl rfl

/-- C9: on every close series with at least 15 entries, `calcRSI` returns a
value in the closed interval `[0, 100]`. -/
theorem calcRSI_in_range (closes : List ℚ) (h : 15 ≤ closes.length) :
    ∃ x : ℚ, calcRSI closes = some x ∧ 0 ≤ x ∧ x ≤ 100 :=
  ⟨rsiSpec closes, calcRSI_eq_rsiSpec closes h, rsiSpec_bounds closes⟩

/-- Witness for C9 at a concrete 15-element close series. -/
theorem calcRSI_in_range_witness :
    15 ≤ (List.replicate 15 (2 : ℚ)).length ∧
      ∃ x : ℚ, calcRSI (List.replicate 15 (2 : ℚ)) = some x ∧ 0 ≤ x ∧ x ≤ 100 :=
  ⟨by decide, calcRSI_in_range (List.replicate 15 (2 : ℚ)) (by decide)⟩

/-- C10: in every snapshot built by `fetchStockData`, `ma_5` is null iff
`ma_25` is null (both are null exactly when the filtered close series is
empty), and a non-null `rsi` forces both moving averages to be non-null. -/
theorem fetchStockData_null_consistency (symbol : String) (price volume : Option ℚ)
    (historicalCloses : List (Option ℚ)) :
    ((fetchStockData symbol price volume historicalCloses).ma_5 = none ↔
      (fetchStockData symbol price volume historicalCloses).ma_25 = none) ∧
    ((fetchStockData symbol price volume historicalCloses).ma_5 = none ↔
      historicalCloses.filterMap id = []) ∧
    ((fetchStockData symbol price volume historicalCloses).rsi ≠ none →
      (fetchStockData symbol price volume historicalCloses).ma_5 ≠ none ∧
      (fetchStockData symbol price volume historicalCloses).ma_25 ≠ none) := by
  have h5 : (fetchStockData symbol price volume historicalCloses).ma_5 = none ↔
      historicalCloses.filterMap id = [] := by
    simp only [fetchStockData]
    exact ma_none_iff 5 (by norm_num) (historicalCloses.filterMap id)
  have h25 : (fetchStockData symbol price volume historicalCloses).ma_25 = none ↔
      historicalCloses.filterMap id = [] := by
    simp only [fetchStockData]
    exact ma_none_iff 25 (by norm_num) (historicalCloses.filterMap id)
  refine ⟨h5.trans h25.symm, h5, fun hr => ?_⟩
  have hlen : 15 ≤ (historicalCloses.filterMap id).length :=
    calcRSI_ne_none_length (historicalCloses.filterMap id) hr
  have hne : historicalCloses.filterMap id ≠ [] := by
    intro h0
    rw [h0] at hlen
    simp at hlen
  exact ⟨fun h => hne (h5.1 h), fun h => hne (h25.1 h)⟩

/-- Witness for C10 at a 15-entry historical series (so the RSI is present). -/
theorem fetchStockData_null_consistency_witness :
    (fetchStockData "X" none none (List.replicate 15 (some (1 : ℚ)))).rsi ≠ none ∧
    (fetchStockData "X" none none (List.replicate 15 (some (1 : ℚ)))).ma_5 ≠ none ∧
    (fetchStockData "X" none none (List.replicate 15 (some (1 : ℚ)))).ma_25 ≠ none := by
  have hr : (fetchStockData "X" none none (List.replicate 15 (some (1 : ℚ)))).rsi ≠ none := by
    simp [fetchStockData, calcRSI, rsiStep, List.range', sliceLast]
  exact ⟨hr,
    (fetchStockData_null_consistency "X" none none (List.replicate 15 (some (1 : ℚ)))).2.2 hr⟩

end StockServer
